import Mathlib

/-!
Verification development for the personal-assistant-agent repository.

The repository is Python glue code: three Google-API capability functions
(`read_emails`, `list_calendar_events`, `create_calendar_event` in
`src/tools.py`), an OAuth credential loader (`get_google_credentials` in
`src/tools.py`), and a Slack dispatcher (`src/slack_bot.py`).

The shallow embedding below models:
  * Python dictionaries / JSON-like values as the inductive `JVal`;
    `JVal.lookup` is dictionary key lookup;
  * Python exceptions as `Except String` (an exception is identified with
    its `str(e)` rendering) — a caught arbitrary exception from an external
    collaborator is a `.error s`;
  * external collaborators (the Gmail/Calendar services, the OAuth refresh
    and interactive flow, the Claude backend) as environment records whose
    fields say, for each request shape, whether the call returns a value
    or raises;
  * `datetime` values as `Int` seconds (so `timedelta(days=7)` is
    `7 * 86400`); the final `isoformat() + 'Z'` rendering of the query
    window is an injective encoding and is not modelled — the request
    record carries the window endpoints themselves;
  * the Slack handlers as pure functions from an inbound event to the list
    of observable outbound actions (`BotAction`): replies posted and
    agent/capability calls made, in order.
-/

/-- JSON-like values: the shape of Python dicts/lists/strings/ints returned
and consumed by the capability functions. -/
inductive JVal where
  | null : JVal
  | str : String → JVal
  | nat : Nat → JVal
  | list : List JVal → JVal
  | obj : List (String × JVal) → JVal

/-- Key lookup in an object's field list: first binding wins (Python dicts
built here never repeat a key). -/
def lookupFields : List (String × JVal) → String → Option JVal
  | [], _ => none
  | (k, v) :: rest, key => if k = key then some v else lookupFields rest key

/-- Dictionary lookup on a `JVal`; `none` on non-objects and missing keys. -/
def JVal.lookup : JVal → String → Option JVal
  | .obj fields, key => lookupFields fields key
  | _, _ => none

/-- `str()` rendering used by Python f-strings for the values that occur
in this program (strings render as themselves, ints in decimal). The
list/obj branches are never reached on values this program produces. -/
def JVal.pyStr : JVal → String
  | .str s => s
  | .nat n => toString n
  | .null => "None"
  | .list _ => "[...]"
  | .obj _ => "\x7b...\x7d"

/-- Python `d[k]`: the value, or a raised `KeyError(k)` whose `str()` is
the quoted key. -/
def pyGet (v : JVal) (k : String) : Except String JVal :=
  match v.lookup k with
  | some x => Except.ok x
  | none => Except.error ("\x27" ++ k ++ "\x27")

/-- Python truthiness of an optional string (`event.get(k)`):
absent and empty string are falsy. -/
def pyTruthy : Option String → Bool
  | none => false
  | some s => s ≠ ""

/-- Python `str.strip()`: drop whitespace from both ends. -/
def pyStrip (s : String) : String :=
  String.mk (((s.data.dropWhile Char.isWhitespace).reverse.dropWhile Char.isWhitespace).reverse)

/-- Python `str.lower()` (ASCII case, which is all this program compares). -/
def pyLower (s : String) : String :=
  String.mk (s.data.map Char.toLower)

/-- The error-result mapping produced by every capability function's
`except` clause: `{"status": "error", "message": str(e)}` (tools.py
lines 110, 166, 221). -/
def errObj (e : String) : JVal :=
  JVal.obj [("status", JVal.str "error"), ("message", JVal.str e)]

/- ## Credential manager (`get_google_credentials`, tools.py lines 21-55) -/

/-- tools.py line 17. -/
def GMAIL_SCOPES : List String := ["https://www.googleapis.com/auth/gmail.readonly"]

/-- tools.py line 18. -/
def CALENDAR_SCOPES : List String := ["https://www.googleapis.com/auth/calendar"]

/-- A google.oauth2 `Credentials` object, keeping the attributes
`get_google_credentials` inspects. -/
structure Credential where
  valid : Bool
  expired : Bool
  refresh_token : Option String

/-- The exceptions `get_google_credentials` can raise, identified by type. -/
inductive PyExc where
  | fileNotFoundError : String → PyExc
  | generic : String → PyExc

/-- `str(e)` for a `PyExc` (for `FileNotFoundError(msg)` this is `msg`). -/
def PyExc.str : PyExc → String
  | .fileNotFoundError m => m
  | .generic m => m

/-- Environment for one token-file path: the pickled credential stored there
(if the file exists), whether `credentials.json` exists, and the outcomes of
the two external authorization collaborators. -/
structure CredEnv where
  tokenFileCred : Option Credential
  refresh : Credential → Except String Credential
  credentialsJsonExists : Bool
  flow : List String → Except String Credential

/-- The `else` branch of `get_google_credentials` (tools.py lines 43-49):
interactive flow, requiring `credentials.json`. -/
def newCredentialFlow (env : CredEnv) (scopes : List String) : Except PyExc Credential :=
  if env.credentialsJsonExists then
    (env.flow scopes).mapError PyExc.generic
  else
    Except.error (PyExc.fileNotFoundError
      "credentials.json not found. Please download it from Google Cloud Console.")

/-- tools.py lines 21-55. Loads the pickled credential if the token file
exists; if there is no credential or it is invalid, refresh when it is
expired with a (truthy) refresh token, otherwise run the interactive flow.
The `pickle.dump` persistence step is a side effect on the local file
system and is not modelled (no claim concerns it). -/
def get_google_credentials (env : CredEnv) (scopes : List String) : Except PyExc Credential :=
  match env.tokenFileCred with
  | none => newCredentialFlow env scopes
  | some creds =>
    if creds.valid then Except.ok creds
    else if creds.expired && pyTruthy creds.refresh_token then
      (env.refresh creds).mapError PyExc.generic
    else newCredentialFlow env scopes

/- ## `read_emails` (tools.py lines 58-110) -/

/-- One entry of a message's `payload.headers` collection. -/
structure Header where
  name : String
  value : String

/-- The parts of a fetched Gmail message that `read_emails` projects:
`message['id']`, `message['payload']['headers']`, `message.get('snippet', '')`. -/
structure GmailMessage where
  id : String
  headers : List Header
  snippet : Option String

/-- External Gmail collaborator: the credential environment for
`gmail_token.pickle`, the outcome of the messages `list` call
(given `maxResults` and `q`; `.ok` carries the returned message ids),
and the outcome of the per-id `get` call. Building the service client
(`build('gmail', 'v1', ...)`) raising is absorbed into the `list` outcome. -/
structure GmailEnv where
  cred : CredEnv
  list : Nat → String → Except String (List String)
  get : String → Except String GmailMessage

/-- tools.py lines 95-97: first-match-wins header lookup with a fixed
fallback — `next((h['value'] for h in headers if h['name'] == name), fallback)`. -/
def extractHeader (headers : List Header) (name fallback : String) : String :=
  match headers.find? (fun h => h.name == name) with
  | some h => h.value
  | none => fallback

/-- tools.py lines 99-105: the per-message summary dictionary. -/
def formatEmail (message : GmailMessage) : JVal :=
  JVal.obj [
    ("id", JVal.str message.id),
    ("subject", JVal.str (extractHeader message.headers "Subject" "No Subject")),
    ("from", JVal.str (extractHeader message.headers "From" "Unknown")),
    ("date", JVal.str (extractHeader message.headers "Date" "Unknown")),
    ("snippet", JVal.str (message.snippet.getD ""))
  ]

/-- tools.py lines 86-105: the `for msg in messages` loop — fetch each id in
order; the first raising `get` aborts the whole loop with that exception. -/
def fetchEmails (env : GmailEnv) : List String → Except String (List JVal)
  | [] => Except.ok []
  | msgId :: rest =>
    match env.get msgId with
    | Except.error e => Except.error e
    | Except.ok message =>
      match fetchEmails env rest with
      | Except.error e => Except.error e
      | Except.ok tail => Except.ok (formatEmail message :: tail)

/-- The `try` body of `read_emails` (tools.py lines 69-107): `.error e`
means the body raised an exception whose `str()` is `e`. -/
def read_emailsTry (env : GmailEnv) (max_results : Nat) (query : String) :
    Except String JVal :=
  match (get_google_credentials env.cred GMAIL_SCOPES).mapError PyExc.str with
  | Except.error e => Except.error e
  | Except.ok _creds =>
    match env.list max_results query with
    | Except.error e => Except.error e
    | Except.ok messages =>
      if messages.isEmpty then
        Except.ok (JVal.obj
          [("status", JVal.str "success"), ("count", JVal.nat 0),
           ("emails", JVal.list [])])
      else
        match fetchEmails env messages with
        | Except.error e => Except.error e
        | Except.ok emails =>
          Except.ok (JVal.obj
            [("status", JVal.str "success"), ("count", JVal.nat emails.length),
             ("emails", JVal.list emails)])

/-- tools.py lines 58-110: `read_emails` never raises — the catch-all turns
any exception into the error-result mapping. -/
def read_emails (env : GmailEnv) (max_results : Nat) (query : String) : JVal :=
  match read_emailsTry env max_results query with
  | Except.ok v => v
  | Except.error e => errObj e

/- ## `list_calendar_events` (tools.py lines 113-166) -/

/-- The `start`/`end` sub-dictionaries of a calendar event. -/
structure EventTime where
  dateTime : Option String
  date : Option String

/-- A calendar event item as returned by the external list call, keeping the
fields `list_calendar_events` projects (`ev_end` models the Python key
`end`, a Lean keyword). -/
structure CalItem where
  id : String
  summary : Option String
  start : EventTime
  ev_end : EventTime
  location : Option String
  description : Option String

/-- The event-list request assembled at tools.py lines 138-145.
`timeMin`/`timeMax` are the window endpoints (datetimes as `Int` seconds;
the `isoformat() + 'Z'` string rendering is not modelled). -/
structure CalListRequest where
  calendarId : String
  timeMin : Int
  timeMax : Int
  maxResults : Nat
  singleEvents : Bool
  orderBy : String

/-- The id and `htmlLink` of an event created by the external insert call. -/
structure CreatedEvent where
  id : String
  htmlLink : Option String

/-- External Calendar collaborator: credential environment for
`calendar_token.pickle`, the current time (`datetime.utcnow()` as `Int`
seconds), and the outcomes of the `list` and `insert` calls. -/
structure CalEnv where
  cred : CredEnv
  now : Int
  list : CalListRequest → Except String (List CalItem)
  insert : JVal → Except String CreatedEvent

/-- tools.py lines 133-136: default `time_min` to now and `time_max` to
seven days after `time_min` when unset (`timedelta(days=7)` = `7 * 86400`
seconds). Returns the effective `(timeMin, timeMax)` window. -/
def calendarQueryWindow (now : Int) (time_min time_max : Option Int) : Int × Int :=
  let tmin := time_min.getD now
  let tmax := time_max.getD (tmin + 7 * 86400)
  (tmin, tmax)

/-- The full request of tools.py lines 138-145. -/
def calendarListRequest (now : Int) (max_results : Nat)
    (time_min time_max : Option Int) : CalListRequest :=
  let w := calendarQueryWindow now time_min time_max
  CalListRequest.mk "primary" w.1 w.2 max_results true "startTime"

/-- tools.py lines 151-152: `event['start'].get('dateTime', event['start'].get('date'))`. -/
def eventTimeValue (t : EventTime) : JVal :=
  match t.dateTime with
  | some s => JVal.str s
  | none =>
    match t.date with
    | some d => JVal.str d
    | none => JVal.null

/-- tools.py lines 154-161: the per-event summary dictionary. -/
def formatEvent (event : CalItem) : JVal :=
  JVal.obj [
    ("id", JVal.str event.id),
    ("summary", JVal.str (event.summary.getD "No Title")),
    ("start", eventTimeValue event.start),
    ("end", eventTimeValue event.ev_end),
    ("location", JVal.str (event.location.getD "")),
    ("description", JVal.str (event.description.getD ""))
  ]

/-- The `try` body of `list_calendar_events` (tools.py lines 129-163). -/
def list_calendar_eventsTry (env : CalEnv) (max_results : Nat)
    (time_min time_max : Option Int) : Except String JVal :=
  match (get_google_credentials env.cred CALENDAR_SCOPES).mapError PyExc.str with
  | Except.error e => Except.error e
  | Except.ok _creds =>
    match env.list (calendarListRequest env.now max_results time_min time_max) with
    | Except.error e => Except.error e
    | Except.ok events =>
      let formatted_events := events.map formatEvent
      Except.ok (JVal.obj
        [("status", JVal.str "success"),
         ("count", JVal.nat formatted_events.length),
         ("events", JVal.list formatted_events)])

/-- tools.py lines 113-166: `list_calendar_events` never raises. -/
def list_calendar_events (env : CalEnv) (max_results : Nat)
    (time_min time_max : Option Int) : JVal :=
  match list_calendar_eventsTry env max_results time_min time_max with
  | Except.ok v => v
  | Except.error e => errObj e

/- ## `create_calendar_event` (tools.py lines 169-221) -/

/-- Python truthiness of the `attendees` argument: `None` and `[]` are falsy. -/
def pyTruthyList : Option (List String) → Bool
  | none => false
  | some l => !l.isEmpty

/-- tools.py lines 195-210: the request body. The base dictionary is built
at lines 195-207; line 209-210 appends the `attendees` key only when the
argument is truthy (`if attendees:`), mapping each address to
`{'email': email}` in order. -/
def buildEventBody (summary start_time end_time description location : String)
    (attendees : Option (List String)) : JVal :=
  let base : List (String × JVal) := [
    ("summary", JVal.str summary),
    ("location", JVal.str location),
    ("description", JVal.str description),
    ("start", JVal.obj [("dateTime", JVal.str start_time), ("timeZone", JVal.str "UTC")]),
    ("end", JVal.obj [("dateTime", JVal.str end_time), ("timeZone", JVal.str "UTC")])
  ]
  if pyTruthyList attendees then
    JVal.obj (base ++
      [("attendees",
        JVal.list ((attendees.getD []).map (fun email => JVal.obj [("email", JVal.str email)])))])
  else
    JVal.obj base

/-- The `try` body of `create_calendar_event` (tools.py lines 191-218). -/
def create_calendar_eventTry (env : CalEnv) (summary start_time end_time description location : String)
    (attendees : Option (List String)) : Except String JVal :=
  match (get_google_credentials env.cred CALENDAR_SCOPES).mapError PyExc.str with
  | Except.error e => Except.error e
  | Except.ok _creds =>
    match env.insert (buildEventBody summary start_time end_time description location attendees) with
    | Except.error e => Except.error e
    | Except.ok created_event =>
      Except.ok (JVal.obj
        [("status", JVal.str "success"),
         ("event_id", JVal.str created_event.id),
         ("event_link", JVal.str (created_event.htmlLink.getD ""))])

/-- tools.py lines 169-221: `create_calendar_event` never raises. -/
def create_calendar_event (env : CalEnv) (summary start_time end_time description location : String)
    (attendees : Option (List String)) : JVal :=
  match create_calendar_eventTry env summary start_time end_time description location attendees with
  | Except.ok v => v
  | Except.error e => errObj e

/- ## Agent convenience methods (agent.py lines 101-151) -/

/-- Environment of the Slack dispatcher: the two capability environments
and the Claude backend (`simple_query`), modelled as a total function from
the prompt to the concatenated streamed response. -/
structure AgentEnv where
  gmail : GmailEnv
  cal : CalEnv
  query : String → String

/-- agent.py lines 101-112: `read_recent_emails` forwards to `read_emails`. -/
def agent_read_recent_emails (env : AgentEnv) (max_results : Nat) (q : String) : JVal :=
  read_emails env.gmail max_results q

/-- agent.py lines 114-124: `get_calendar_events` forwards to
`list_calendar_events` with default time bounds. -/
def agent_get_calendar_events (env : AgentEnv) (max_results : Nat) : JVal :=
  list_calendar_events env.cal max_results none none

/- ## Slack dispatcher (`slack_bot.py`) -/

/-- The observable outbound effects of one handler invocation, in order:
replies posted (`say`) and agent/capability calls made. -/
inductive BotAction where
  | sayText : String → BotAction
  | sayThread : String → Option String → BotAction
  | sayPayload : JVal → BotAction
  | callReadEmails : Nat → String → BotAction
  | callGetCalendar : Nat → BotAction
  | callQuery : String → BotAction

/- ### Mention handler (`_handle_mention_async`, slack_bot.py lines 71-104) -/

/-- A character matched by `[A-Z0-9]` (ASCII uppercase letter or digit). -/
def isMentionChar (c : Char) : Bool := c.isUpper || c.isDigit

/-- Try to match the regex `<@[A-Z0-9]+>` at the head of the character
list; on success return the characters after the match. The `[A-Z0-9]+`
is effectively greedy-maximal here: backtracking into the run can never
succeed because every shorter run is followed by another `[A-Z0-9]`
character, which is not `>`. -/
def matchMention : List Char → Option (List Char)
  | '<' :: '@' :: rest =>
    (match rest.takeWhile isMentionChar, rest.dropWhile isMentionChar with
     | [], _ => none
     | _ :: _, '>' :: rest3 => some rest3
     | _, _ => none)
  | _ => none

/-- `re.sub(r'<@[A-Z0-9]+>', '', text)` scanning: at each position, remove
a match if one starts there, else keep the character and advance. Each step
consumes at least one character while spending one unit of fuel, so fuel
equal to the input length never runs out. -/
def removeMentionsAux : Nat → List Char → List Char
  | 0, l => l
  | _ + 1, [] => []
  | fuel + 1, c :: rest =>
    match matchMention (c :: rest) with
    | some rest3 => removeMentionsAux fuel rest3
    | none => c :: removeMentionsAux fuel rest

/-- slack_bot.py line 87: remove every occurrence of a mention token
anywhere in the text (`re.sub` replaces all non-overlapping matches). -/
def removeMentions (s : String) : String :=
  String.mk (removeMentionsAux s.data.length s.data)

/-- The fields of an `app_mention` event the handler reads. -/
structure MentionEvent where
  text : Option String
  user : Option String
  channel : Option String
  ts : Option String

/-- slack_bot.py lines 71-104 (`_handle_mention_async`): strip all mention
tokens, trim; empty remainder gets a fixed greeting and nothing else;
otherwise a threaded acknowledgment, the agent query, and the threaded
answer. (The handler's `except` clause is unreachable in this model: no
step of the body raises.) -/
def handle_mention (env : AgentEnv) (event : MentionEvent) : List BotAction :=
  let text := event.text.getD ""
  let clean_text := pyStrip (removeMentions text)
  if clean_text = "" then
    [BotAction.sayText "Hi! How can I assist you today?"]
  else
    [BotAction.sayThread "Processing your request..." event.ts,
     BotAction.callQuery clean_text,
     BotAction.sayThread (env.query clean_text) event.ts]

/- ### Message handler (slack_bot.py lines 57-63 and 106-134) -/

/-- The fields of a `message` event the handlers read. -/
structure MessageEvent where
  subtype : Option String
  bot_id : Option String
  channel_type : Option String
  text : Option String
  user : Option String

/-- slack_bot.py lines 106-134 (`_handle_message_async`): drop unless the
channel type is exactly `"im"`; drop empty text; otherwise query the agent
and reply unthreaded. -/
def handle_message_async (env : AgentEnv) (event : MessageEvent) : List BotAction :=
  if event.channel_type ≠ some "im" then []
  else
    let text := event.text.getD ""
    if text = "" then []
    else [BotAction.callQuery text, BotAction.sayText (env.query text)]

/-- slack_bot.py lines 57-63 (`handle_message`): drop when
`event.get("subtype") or event.get("bot_id")` is truthy, else run the
async handler. -/
def handle_message (env : AgentEnv) (event : MessageEvent) : List BotAction :=
  if pyTruthy event.subtype || pyTruthy event.bot_id then []
  else handle_message_async env event

/- ### Slash-command handler (`_handle_command_async`, slack_bot.py lines 136-201) -/

/-- The fields of a slash-command payload the handler reads. -/
structure SlashCommand where
  text : Option String

/-- The fixed help payload posted for an empty command (slack_bot.py
lines 149-164). -/
def helpPayload : JVal :=
  JVal.obj [
    ("text", JVal.str "Personal Assistant Commands"),
    ("blocks", JVal.list [
      JVal.obj [
        ("type", JVal.str "section"),
        ("text", JVal.obj [
          ("type", JVal.str "mrkdwn"),
          ("text", JVal.str ("*Available commands:*\n• `/assistant emails` - Check recent unread emails\n• `/assistant calendar` - View upcoming events\n• `/assistant schedule [details]` - Schedule a new event\n• `/assistant [question]` - Ask any question"))
        ])
      ]
    ])
  ]

/-- Python `result['status'] == 'success'`: `==` against a string literal
is `False` for non-string values, it does not raise. -/
def isSuccess (v : JVal) : Bool :=
  match v with
  | JVal.str s => s == "success"
  | _ => false

/-- One line of the emails listing (slack_bot.py line 174):
`f"• *\x7bemail['subject']\x7d* from \x7bemail['from']\x7d"`; subscription can raise
`KeyError`. -/
def emailLine (email : JVal) : Except String String :=
  match pyGet email "subject" with
  | Except.error e => Except.error e
  | Except.ok subj =>
    match pyGet email "from" with
    | Except.error e => Except.error e
    | Except.ok frm => Except.ok ("• *" ++ subj.pyStr ++ "* from " ++ frm.pyStr)

/-- The list comprehension of slack_bot.py lines 173-176; the first raising
element aborts the whole comprehension. -/
def emailLines : List JVal → Except String (List String)
  | [] => Except.ok []
  | e :: rest =>
    match emailLine e with
    | Except.error err => Except.error err
    | Except.ok line =>
      match emailLines rest with
      | Except.error err => Except.error err
      | Except.ok tail => Except.ok (line :: tail)

/-- slack_bot.py lines 171-179: message posted for the `emails` subcommand.
`.error` models an exception escaping to the handler's catch-all — only
possible for result shapes the capability functions never produce (the
`"TypeError"` branches stand for Python's `TypeError` on non-int count /
non-list emails and are unreachable on actual `read_emails` results). -/
def renderEmailsMsg (result : JVal) : Except String String :=
  match pyGet result "status" with
  | Except.error e => Except.error e
  | Except.ok status =>
    if isSuccess status then
      match pyGet result "count" with
      | Except.error e => Except.error e
      | Except.ok countV =>
        match countV with
        | JVal.nat n =>
          if n > 0 then
            match pyGet result "emails" with
            | Except.error e => Except.error e
            | Except.ok emailsV =>
              match emailsV with
              | JVal.list emails =>
                (match emailLines emails with
                 | Except.error e => Except.error e
                 | Except.ok lines =>
                   Except.ok ("You have " ++ countV.pyStr ++ " unread emails:\n" ++
                     String.intercalate "\n" lines))
              | _ => Except.error "TypeError"
          else Except.ok "No unread emails found or unable to access Gmail."
        | _ => Except.error "TypeError"
    else Except.ok "No unread emails found or unable to access Gmail."

/-- One line of the events listing (slack_bot.py line 187):
`f"• *\x7bevent['summary']\x7d* - \x7bevent['start']\x7d"`. -/
def eventLine (event : JVal) : Except String String :=
  match pyGet event "summary" with
  | Except.error e => Except.error e
  | Except.ok summ =>
    match pyGet event "start" with
    | Except.error e => Except.error e
    | Except.ok st => Except.ok ("• *" ++ summ.pyStr ++ "* - " ++ st.pyStr)

/-- The list comprehension of slack_bot.py lines 186-189. -/
def eventLines : List JVal → Except String (List String)
  | [] => Except.ok []
  | e :: rest =>
    match eventLine e with
    | Except.error err => Except.error err
    | Except.ok line =>
      match eventLines rest with
      | Except.error err => Except.error err
      | Except.ok tail => Except.ok (line :: tail)

/-- slack_bot.py lines 184-192: message posted for the `calendar` subcommand. -/
def renderEventsMsg (result : JVal) : Except String String :=
  match pyGet result "status" with
  | Except.error e => Except.error e
  | Except.ok status =>
    if isSuccess status then
      match pyGet result "count" with
      | Except.error e => Except.error e
      | Except.ok countV =>
        match countV with
        | JVal.nat n =>
          if n > 0 then
            match pyGet result "events" with
            | Except.error e => Except.error e
            | Except.ok eventsV =>
              match eventsV with
              | JVal.list events =>
                (match eventLines events with
                 | Except.error e => Except.error e
                 | Except.ok lines =>
                   Except.ok ("Upcoming events:\n" ++ String.intercalate "\n" lines))
              | _ => Except.error "TypeError"
          else Except.ok "No upcoming events found or unable to access Calendar."
        | _ => Except.error "TypeError"
    else Except.ok "No upcoming events found or unable to access Calendar."

/-- The `emails` subcommand branch (slack_bot.py lines 168-179): the
capability call happens, then either the rendered reply or the handler's
catch-all apology (slack_bot.py line 201). -/
def emailsBranch (env : AgentEnv) : List BotAction :=
  let result := agent_read_recent_emails env 5 "is:unread"
  BotAction.callReadEmails 5 "is:unread" ::
    (match renderEmailsMsg result with
     | Except.ok s => [BotAction.sayText s]
     | Except.error e => [BotAction.sayText ("Sorry, I encountered an error: " ++ e)])

/-- The `calendar` subcommand branch (slack_bot.py lines 181-192). -/
def calendarBranch (env : AgentEnv) : List BotAction :=
  let result := agent_get_calendar_events env 5
  BotAction.callGetCalendar 5 ::
    (match renderEventsMsg result with
     | Except.ok s => [BotAction.sayText s]
     | Except.error e => [BotAction.sayText ("Sorry, I encountered an error: " ++ e)])

/-- slack_bot.py lines 136-201 (`_handle_command_async`): trim the command
text; empty gives the fixed help payload; `emails` / `calendar`
(case-insensitive, after trimming) run the corresponding capability branch
with limit 5; anything else is forwarded to the generic query. -/
def handle_command (env : AgentEnv) (command : SlashCommand) : List BotAction :=
  let command_text := pyStrip (command.text.getD "")
  if command_text = "" then
    [BotAction.sayPayload helpPayload]
  else if pyLower command_text = "emails" then
    emailsBranch env
  else if pyLower command_text = "calendar" then
    calendarBranch env
  else
    [BotAction.callQuery command_text, BotAction.sayText (env.query command_text)]

/- ## Helper lemmas -/

theorem read_emailsTry_ok_status (env : GmailEnv) (mr : Nat) (q : String) (v : JVal)
    (h : read_emailsTry env mr q = Except.ok v) :
    v.lookup "status" = some (JVal.str "success") := by
  unfold read_emailsTry at h
  repeat' split at h
  all_goals first
    | (injection h with h; subst h; rfl)
    | injection h

theorem list_calendar_eventsTry_ok_status (env : CalEnv) (mr : Nat)
    (tmin tmax : Option Int) (v : JVal)
    (h : list_calendar_eventsTry env mr tmin tmax = Except.ok v) :
    v.lookup "status" = some (JVal.str "success") := by
  unfold list_calendar_eventsTry at h
  repeat' split at h
  all_goals first
    | (injection h with h; subst h; rfl)
    | injection h

theorem create_calendar_eventTry_ok_status (env : CalEnv)
    (s st et d loc : String) (att : Option (List String)) (v : JVal)
    (h : create_calendar_eventTry env s st et d loc att = Except.ok v) :
    v.lookup "status" = some (JVal.str "success") := by
  unfold create_calendar_eventTry at h
  repeat' split at h
  all_goals first
    | (injection h with h; subst h; rfl)
    | injection h

theorem errObj_lookup_status (e : String) :
    (errObj e).lookup "status" = some (JVal.str "error") := rfl

/- ## Claims -/

/-- C1: every call to `read_emails`, `list_calendar_events` or
`create_calendar_event` returns a mapping containing a `status` key, and
whenever the external dependency raises (the `try` body errors with
`str(e)`), the result is exactly `{status: "error", message: str(e)}`.
No exception propagates to the caller: the three functions are total and
always return a result mapping. -/
theorem capability_status_and_error_contract :
    (∀ (env : GmailEnv) (mr : Nat) (q : String),
      ((read_emails env mr q).lookup "status").isSome = true) ∧
    (∀ (env : CalEnv) (mr : Nat) (tmin tmax : Option Int),
      ((list_calendar_events env mr tmin tmax).lookup "status").isSome = true) ∧
    (∀ (env : CalEnv) (s st et d loc : String) (att : Option (List String)),
      ((create_calendar_event env s st et d loc att).lookup "status").isSome = true) ∧
    (∀ (env : GmailEnv) (mr : Nat) (q e : String),
      read_emailsTry env mr q = Except.error e →
      read_emails env mr q = errObj e) ∧
    (∀ (env : CalEnv) (mr : Nat) (tmin tmax : Option Int) (e : String),
      list_calendar_eventsTry env mr tmin tmax = Except.error e →
      list_calendar_events env mr tmin tmax = errObj e) ∧
    (∀ (env : CalEnv) (s st et d loc : String) (att : Option (List String)) (e : String),
      create_calendar_eventTry env s st et d loc att = Except.error e →
      create_calendar_event env s st et d loc att = errObj e) := by
  refine ⟨?_, ?_, ?_, ?_, ?_, ?_⟩
  · intro env mr q
    unfold read_emails
    cases h : read_emailsTry env mr q with
    | ok v => rw [read_emailsTry_ok_status env mr q v h]; rfl
    | error e => rfl
  · intro env mr tmin tmax
    unfold list_calendar_events
    cases h : list_calendar_eventsTry env mr tmin tmax with
    | ok v => rw [list_calendar_eventsTry_ok_status env mr tmin tmax v h]; rfl
    | error e => rfl
  · intro env s st et d loc att
    unfold create_calendar_event
    cases h : create_calendar_eventTry env s st et d loc att with
    | ok v => rw [create_calendar_eventTry_ok_status env s st et d loc att v h]; rfl
    | error e => rfl
  · intro env mr q e h
    unfold read_emails
    rw [h]
  · intro env mr tmin tmax e h
    unfold list_calendar_events
    rw [h]
  · intro env s st et d loc att e h
    unfold create_calendar_event
    rw [h]

/-- Concrete environments for witnesses: a valid stored credential. -/
def credEnvOk : CredEnv :=
  CredEnv.mk (some (Credential.mk true false none))
    (fun _ => Except.error "refresh failed") true (fun _ => Except.error "flow failed")

/-- Concrete environment whose interactive flow raises `"boom"`. -/
def credEnvBoom : CredEnv :=
  CredEnv.mk none (fun _ => Except.error "refresh failed") true (fun _ => Except.error "boom")

/-- Gmail environment whose credential acquisition raises `"boom"`. -/
def gmailEnvBoom : GmailEnv :=
  GmailEnv.mk credEnvBoom (fun _ _ => Except.ok []) (fun _ => Except.error "get failed")

/-- Calendar environment whose credential acquisition raises `"boom"`. -/
def calEnvBoom : CalEnv :=
  CalEnv.mk credEnvBoom 1000 (fun _ => Except.ok []) (fun _ => Except.error "insert failed")

theorem capability_status_and_error_contract_witness :
    read_emails gmailEnvBoom 5 "" = errObj "boom" ∧
    list_calendar_events calEnvBoom 5 none none = errObj "boom" ∧
    create_calendar_event calEnvBoom "t" "2025-10-24T10:00:00" "2025-10-24T11:00:00" "" "" none
      = errObj "boom" :=
  ⟨capability_status_and_error_contract.2.2.2.1 gmailEnvBoom 5 "" "boom" rfl,
   capability_status_and_error_contract.2.2.2.2.1 calEnvBoom 5 none none "boom" rfl,
   capability_status_and_error_contract.2.2.2.2.2 calEnvBoom "t" "2025-10-24T10:00:00"
     "2025-10-24T11:00:00" "" "" none "boom" rfl⟩

/-- C2: when no credential file exists, or the loaded credential is invalid
with no usable refresh token, and `credentials.json` is absent, the
credential acquisition fails. The spec's `ConfigurationError` is realized
in the code as `FileNotFoundError` with the fixed descriptor-missing
message (tools.py lines 44-47). -/
theorem get_google_credentials_missing_descriptor (env : CredEnv) (scopes : List String)
    (hjson : env.credentialsJsonExists = false)
    (hcase : env.tokenFileCred = none ∨
      ∃ c, env.tokenFileCred = some c ∧ c.valid = false ∧ pyTruthy c.refresh_token = false) :
    get_google_credentials env scopes = Except.error (PyExc.fileNotFoundError
      "credentials.json not found. Please download it from Google Cloud Console.") := by
  have hflow : newCredentialFlow env scopes = Except.error (PyExc.fileNotFoundError
      "credentials.json not found. Please download it from Google Cloud Console.") := by
    unfold newCredentialFlow
    rw [hjson]
    rfl
  rcases hcase with hnone | ⟨c, hc, hvalid, htok⟩
  · unfold get_google_credentials
    rw [hnone]
    exact hflow
  · unfold get_google_credentials
    rw [hc]
    simp [hvalid, htok, hflow]

/-- Concrete environment with no token file and no `credentials.json`. -/
def credEnvNoJson : CredEnv :=
  CredEnv.mk none (fun _ => Except.error "refresh failed") false
    (fun _ => Except.error "flow failed")

theorem get_google_credentials_missing_descriptor_witness :
    get_google_credentials credEnvNoJson GMAIL_SCOPES = Except.error (PyExc.fileNotFoundError
      "credentials.json not found. Please download it from Google Cloud Console.") :=
  get_google_credentials_missing_descriptor credEnvNoJson GMAIL_SCOPES rfl (Or.inl rfl)

/-- C3: a capability call whose filter or time range matches zero external
items (the external list call returns no messages/events) yields
`{status: "success", count: 0, emails/events: []}`, never an error. -/
theorem capability_empty_match_success :
    (∀ (env : GmailEnv) (mr : Nat) (q : String) (c : Credential),
      get_google_credentials env.cred GMAIL_SCOPES = Except.ok c →
      env.list mr q = Except.ok [] →
      read_emails env mr q = JVal.obj
        [("status", JVal.str "success"), ("count", JVal.nat 0), ("emails", JVal.list [])]) ∧
    (∀ (env : CalEnv) (mr : Nat) (tmin tmax : Option Int) (c : Credential),
      get_google_credentials env.cred CALENDAR_SCOPES = Except.ok c →
      env.list (calendarListRequest env.now mr tmin tmax) = Except.ok [] →
      list_calendar_events env mr tmin tmax = JVal.obj
        [("status", JVal.str "success"), ("count", JVal.nat 0), ("events", JVal.list [])]) := by
  constructor
  · intro env mr q c hc hlist
    unfold read_emails read_emailsTry
    rw [hc, hlist]
    rfl
  · intro env mr tmin tmax c hc hlist
    unfold list_calendar_events list_calendar_eventsTry
    rw [hc, hlist]
    rfl

/-- Gmail environment with a valid credential whose list call matches nothing. -/
def gmailEnvEmpty : GmailEnv :=
  GmailEnv.mk credEnvOk (fun _ _ => Except.ok []) (fun _ => Except.error "get failed")

/-- Calendar environment with a valid credential whose list call matches nothing. -/
def calEnvEmpty : CalEnv :=
  CalEnv.mk credEnvOk 1000 (fun _ => Except.ok []) (fun _ => Except.error "insert failed")

theorem capability_empty_match_success_witness :
    read_emails gmailEnvEmpty 10 "is:unread" = JVal.obj
      [("status", JVal.str "success"), ("count", JVal.nat 0), ("emails", JVal.list [])] ∧
    list_calendar_events calEnvEmpty 10 none none = JVal.obj
      [("status", JVal.str "success"), ("count", JVal.nat 0), ("events", JVal.list [])] :=
  ⟨capability_empty_match_success.1 gmailEnvEmpty 10 "is:unread"
      (Credential.mk true false none) rfl rfl,
   capability_empty_match_success.2 calEnvEmpty 10 none none
      (Credential.mk true false none) rfl rfl⟩

/-- C4: with both `time_min` and `time_max` omitted, the effective query
window sent in the events-list request is `[now, now + 7 days)`: `timeMin`
is the call-time current time and `timeMax` is exactly seven days
(`7 * 86400` seconds) later; `list_calendar_events` behaves exactly as if
called with those explicit bounds. -/
theorem calendar_default_window :
    (∀ now : Int, calendarQueryWindow now none none = (now, now + 7 * 86400)) ∧
    (∀ (now : Int) (mr : Nat), calendarListRequest now mr none none =
      CalListRequest.mk "primary" now (now + 7 * 86400) mr true "startTime") ∧
    (∀ (env : CalEnv) (mr : Nat),
      list_calendar_events env mr none none =
      list_calendar_events env mr (some env.now) (some (env.now + 7 * 86400))) :=
  ⟨fun _ => rfl, fun _ _ => rfl, fun _ _ => rfl⟩

/-- C5: with a non-empty attendee list, the request body's `attendees`
entry is exactly the list mapped in order to `{email: <address>}` objects;
with `attendees = None`, the body has no `attendees` key. The body built
here is exactly what `create_calendar_event` hands to the external insert
call. -/
theorem create_event_attendees_mapping (s st et d loc : String) (l : List String)
    (h : l ≠ []) :
    (buildEventBody s st et d loc (some l)).lookup "attendees" =
      some (JVal.list (l.map (fun email => JVal.obj [("email", JVal.str email)]))) ∧
    (buildEventBody s st et d loc none).lookup "attendees" = none ∧
    (∀ env : CalEnv, create_calendar_eventTry env s st et d loc (some l) =
      (match (get_google_credentials env.cred CALENDAR_SCOPES).mapError PyExc.str with
       | Except.error e => Except.error e
       | Except.ok _ =>
         match env.insert (buildEventBody s st et d loc (some l)) with
         | Except.error e => Except.error e
         | Except.ok created_event =>
           Except.ok (JVal.obj
             [("status", JVal.str "success"),
              ("event_id", JVal.str created_event.id),
              ("event_link", JVal.str (created_event.htmlLink.getD ""))]))) := by
  refine ⟨?_, rfl, fun _ => rfl⟩
  cases l with
  | nil => exact absurd rfl h
  | cons a rest => rfl

theorem create_event_attendees_mapping_witness :
    (buildEventBody "Meeting" "2025-10-24T10:00:00" "2025-10-24T11:00:00" "" ""
        (some ["a@x.com", "b@y.com"])).lookup "attendees" =
      some (JVal.list [JVal.obj [("email", JVal.str "a@x.com")],
                       JVal.obj [("email", JVal.str "b@y.com")]]) ∧
    (buildEventBody "Meeting" "2025-10-24T10:00:00" "2025-10-24T11:00:00" "" ""
        none).lookup "attendees" = none :=
  ⟨(create_event_attendees_mapping "Meeting" "2025-10-24T10:00:00" "2025-10-24T11:00:00"
      "" "" ["a@x.com", "b@y.com"] (by simp)).1,
   (create_event_attendees_mapping "Meeting" "2025-10-24T10:00:00" "2025-10-24T11:00:00"
      "" "" ["a@x.com", "b@y.com"] (by simp)).2.1⟩

/-- C10: with `attendees = []`, the request body is identical to the
`attendees = None` body and carries no `attendees` key: inclusion is
decided by the truthiness test `if attendees:` (tools.py line 209), and an
empty list is falsy, so `create_calendar_event` treats `[]` exactly like
`None`. -/
theorem create_event_empty_attendees (s st et d loc : String) :
    buildEventBody s st et d loc (some []) = buildEventBody s st et d loc none ∧
    (buildEventBody s st et d loc (some [])).lookup "attendees" = none ∧
    pyTruthyList (some []) = false ∧
    (∀ env : CalEnv, create_calendar_event env s st et d loc (some []) =
      create_calendar_event env s st et d loc none) :=
  ⟨rfl, rfl, rfl, fun _ => rfl⟩

/-- C8: header extraction for each fetched message is first-match-wins over
the header collection, and missing headers degrade to the fixed fallbacks:
no `Subject` header gives exactly `"No Subject"`, no `From` header gives
exactly `"Unknown"` — both at the level of the projection and in the
`emails` list `read_emails` returns. -/
theorem email_header_first_match_and_fallbacks :
    (∀ (hs1 : List Header) (h : Header) (hs2 : List Header) (name fb : String),
      h.name = name → (∀ h2 ∈ hs1, h2.name ≠ name) →
      extractHeader (hs1 ++ h :: hs2) name fb = h.value) ∧
    (∀ (msg : GmailMessage), (∀ h ∈ msg.headers, h.name ≠ "Subject") →
      (formatEmail msg).lookup "subject" = some (JVal.str "No Subject")) ∧
    (∀ (msg : GmailMessage), (∀ h ∈ msg.headers, h.name ≠ "From") →
      (formatEmail msg).lookup "from" = some (JVal.str "Unknown")) ∧
    (∀ (env : GmailEnv) (mr : Nat) (q : String) (c : Credential) (msgId : String)
        (msg : GmailMessage),
      get_google_credentials env.cred GMAIL_SCOPES = Except.ok c →
      env.list mr q = Except.ok [msgId] →
      env.get msgId = Except.ok msg →
      read_emails env mr q = JVal.obj
        [("status", JVal.str "success"), ("count", JVal.nat 1),
         ("emails", JVal.list [formatEmail msg])]) := by
  have hnone : ∀ (hs : List Header) (name fb : String),
      (∀ h ∈ hs, h.name ≠ name) → extractHeader hs name fb = fb := by
    intro hs name fb hmiss
    unfold extractHeader
    have : hs.find? (fun h => h.name == name) = none := by
      apply List.find?_eq_none.mpr
      intro h hmem
      simpa using hmiss h hmem
    rw [this]
  refine ⟨?_, ?_, ?_, ?_⟩
  · intro hs1 h hs2 name fb hname hmiss
    unfold extractHeader
    induction hs1 with
    | nil =>
      simp [List.find?, hname]
    | cons a rest ih =>
      have ha : (a.name == name) = false := by
        simpa using hmiss a (List.mem_cons_self a rest)
      simp only [List.cons_append, List.find?, ha]
      exact ih (fun h2 hmem => hmiss h2 (List.mem_cons_of_mem a hmem))
  · intro msg hmiss
    unfold formatEmail
    rw [hnone msg.headers "Subject" "No Subject" hmiss]
    rfl
  · intro msg hmiss
    unfold formatEmail
    rw [hnone msg.headers "From" "Unknown" hmiss]
    rfl
  · intro env mr q c msgId msg hc hlist hget
    unfold read_emails read_emailsTry
    rw [hc, hlist]
    simp only [List.isEmpty_cons, Bool.false_eq_true, if_false]
    unfold fetchEmails
    rw [hget]
    rfl

/-- Gmail environment returning one message that has no headers at all. -/
def gmailEnvNoHeaders : GmailEnv :=
  GmailEnv.mk credEnvOk (fun _ _ => Except.ok ["m1"])
    (fun _ => Except.ok (GmailMessage.mk "m1" [] (some "preview")))

theorem email_header_first_match_and_fallbacks_witness :
    extractHeader [Header.mk "X-Spam" "no", Header.mk "Subject" "first",
        Header.mk "Subject" "second"] "Subject" "No Subject" = "first" ∧
    (formatEmail (GmailMessage.mk "m1" [] (some "preview"))).lookup "subject" =
      some (JVal.str "No Subject") ∧
    (formatEmail (GmailMessage.mk "m1" [] (some "preview"))).lookup "from" =
      some (JVal.str "Unknown") ∧
    read_emails gmailEnvNoHeaders 10 "" = JVal.obj
      [("status", JVal.str "success"), ("count", JVal.nat 1),
       ("emails", JVal.list [formatEmail (GmailMessage.mk "m1" [] (some "preview"))])] :=
  ⟨email_header_first_match_and_fallbacks.1 [Header.mk "X-Spam" "no"]
      (Header.mk "Subject" "first") [Header.mk "Subject" "second"] "Subject" "No Subject"
      rfl (by decide),
   email_header_first_match_and_fallbacks.2.1 (GmailMessage.mk "m1" [] (some "preview"))
      (by decide),
   email_header_first_match_and_fallbacks.2.2.1 (GmailMessage.mk "m1" [] (some "preview"))
      (by decide),
   email_header_first_match_and_fallbacks.2.2.2 gmailEnvNoHeaders 10 ""
      (Credential.mk true false none) "m1" (GmailMessage.mk "m1" [] (some "preview"))
      rfl rfl rfl⟩

/-- Concrete dispatcher environment for the Slack-side witnesses. -/
def agentEnvW : AgentEnv :=
  AgentEnv.mk gmailEnvEmpty calEnvEmpty (fun s => "echo " ++ s)

/-- C6: slash-command dispatch — empty (after trimming) argument text
yields the fixed help listing and nothing else; argument text equal to
`"emails"` under case-insensitive exact comparison runs the fetch-messages
branch with limit 5 and filter `is:unread` (the branch's first action is
that capability call); `"calendar"` likewise runs the fetch-events branch
with limit 5; any other text is forwarded verbatim (as trimmed) to the
generic query operation. -/
theorem slash_command_dispatch (env : AgentEnv) (cmd : SlashCommand) :
    (pyStrip (cmd.text.getD "") = "" →
      handle_command env cmd = [BotAction.sayPayload helpPayload]) ∧
    (pyLower (pyStrip (cmd.text.getD "")) = "emails" →
      handle_command env cmd = emailsBranch env) ∧
    (pyLower (pyStrip (cmd.text.getD "")) = "calendar" →
      handle_command env cmd = calendarBranch env) ∧
    (pyStrip (cmd.text.getD "") ≠ "" →
      pyLower (pyStrip (cmd.text.getD "")) ≠ "emails" →
      pyLower (pyStrip (cmd.text.getD "")) ≠ "calendar" →
      handle_command env cmd = [BotAction.callQuery (pyStrip (cmd.text.getD "")),
        BotAction.sayText (env.query (pyStrip (cmd.text.getD "")))]) ∧
    (emailsBranch env).head? = some (BotAction.callReadEmails 5 "is:unread") ∧
    (calendarBranch env).head? = some (BotAction.callGetCalendar 5) := by
  refine ⟨?_, ?_, ?_, ?_, rfl, rfl⟩
  · intro h
    simp only [handle_command]
    rw [if_pos h]
  · intro h
    have hne : pyStrip (cmd.text.getD "") ≠ "" := by
      intro he
      rw [he] at h
      exact absurd h (by decide)
    simp only [handle_command]
    rw [if_neg hne, if_pos h]
  · intro h
    have hne : pyStrip (cmd.text.getD "") ≠ "" := by
      intro he
      rw [he] at h
      exact absurd h (by decide)
    have hne2 : pyLower (pyStrip (cmd.text.getD "")) ≠ "emails" := by
      rw [h]
      decide
    simp only [handle_command]
    rw [if_neg hne, if_neg hne2, if_pos h]
  · intro h1 h2 h3
    simp only [handle_command]
    rw [if_neg h1, if_neg h2, if_neg h3]

theorem slash_command_dispatch_witness :
    handle_command agentEnvW (SlashCommand.mk (some "   ")) =
      [BotAction.sayPayload helpPayload] ∧
    handle_command agentEnvW (SlashCommand.mk (some "EMAILS")) = emailsBranch agentEnvW ∧
    handle_command agentEnvW (SlashCommand.mk (some "Calendar")) = calendarBranch agentEnvW ∧
    handle_command agentEnvW (SlashCommand.mk (some "emails please")) =
      [BotAction.callQuery "emails please",
       BotAction.sayText (agentEnvW.query "emails please")] :=
  ⟨(slash_command_dispatch agentEnvW (SlashCommand.mk (some "   "))).1 rfl,
   (slash_command_dispatch agentEnvW (SlashCommand.mk (some "EMAILS"))).2.1 rfl,
   (slash_command_dispatch agentEnvW (SlashCommand.mk (some "Calendar"))).2.2.1 rfl,
   (slash_command_dispatch agentEnvW (SlashCommand.mk (some "emails please"))).2.2.2.1
     (by decide) (by decide) (by decide)⟩

/-- The operation the claim describes, formalised from its words: strip a
single LEADING mention token (angle-bracket-wrapped uppercase-alphanumeric
identifier) from the text, then trim surrounding whitespace. Used only to
compare against the code's behaviour. -/
def stripLeadingMentionSpec (s : String) : String :=
  pyStrip (String.mk (match matchMention s.data with
    | some rest => rest
    | none => s.data))

/-- C7 counterexample: the code does not strip only a LEADING mention
token — `re.sub(r'<@[A-Z0-9]+>', '', text)` removes every occurrence.
On `"hello <@U123ABC> world"` the claim's leading-only stripping leaves
the text unchanged, while the handler produces `"hello  world"` and
forwards that to the generic query. -/
theorem mention_strip_leading_counterexample :
    pyStrip (removeMentions "hello <@U123ABC> world") = "hello  world" ∧
    stripLeadingMentionSpec "hello <@U123ABC> world" = "hello <@U123ABC> world" ∧
    pyStrip (removeMentions "hello <@U123ABC> world") ≠
      stripLeadingMentionSpec "hello <@U123ABC> world" ∧
    handle_mention agentEnvW (MentionEvent.mk (some "hello <@U123ABC> world")
        (some "U7") (some "C7") (some "11.22")) =
      [BotAction.sayThread "Processing your request..." (some "11.22"),
       BotAction.callQuery "hello  world",
       BotAction.sayThread "echo hello  world" (some "11.22")] :=
  ⟨rfl, rfl, by decide, rfl⟩

/-- C7 (amended): the handler removes EVERY mention token
(angle-bracket-wrapped uppercase-alphanumeric identifier) occurring
anywhere in the message text — not just a leading one — and trims
surrounding whitespace; the claim's example still holds
(`"<@U123ABC> what's on my calendar"` yields `"what's on my calendar"`),
and if the remaining text is empty the handler replies with the fixed
greeting and performs no further processing. -/
theorem mention_strip_all_occurrences (env : AgentEnv) (event : MentionEvent) :
    (pyStrip (removeMentions (event.text.getD "")) = "" →
      handle_mention env event = [BotAction.sayText "Hi! How can I assist you today?"]) ∧
    (pyStrip (removeMentions (event.text.getD "")) ≠ "" →
      handle_mention env event =
        [BotAction.sayThread "Processing your request..." event.ts,
         BotAction.callQuery (pyStrip (removeMentions (event.text.getD ""))),
         BotAction.sayThread (env.query (pyStrip (removeMentions (event.text.getD ""))))
           event.ts]) ∧
    pyStrip (removeMentions "<@U123ABC> what\x27s on my calendar") =
      "what\x27s on my calendar" := by
  refine ⟨?_, ?_, by decide⟩
  · intro h
    simp only [handle_mention]
    rw [if_pos h]
  · intro h
    simp only [handle_mention]
    rw [if_neg h]

theorem mention_strip_all_occurrences_witness :
    handle_mention agentEnvW (MentionEvent.mk (some " <@U123ABC> ")
        (some "U7") (some "C7") (some "1.2")) =
      [BotAction.sayText "Hi! How can I assist you today?"] ∧
    handle_mention agentEnvW (MentionEvent.mk (some "<@U123ABC> what\x27s on my calendar")
        (some "U7") (some "C7") (some "1.2")) =
      [BotAction.sayThread "Processing your request..." (some "1.2"),
       BotAction.callQuery "what\x27s on my calendar",
       BotAction.sayThread (agentEnvW.query "what\x27s on my calendar") (some "1.2")] :=
  ⟨(mention_strip_all_occurrences agentEnvW (MentionEvent.mk (some " <@U123ABC> ")
      (some "U7") (some "C7") (some "1.2"))).1 rfl,
   (mention_strip_all_occurrences agentEnvW (MentionEvent.mk
      (some "<@U123ABC> what\x27s on my calendar")
      (some "U7") (some "C7") (some "1.2"))).2.1 (by decide)⟩

/-- C9 counterexample: the drop test is Python truthiness of
`event.get("subtype")` / `event.get("bot_id")`, not key presence — an
event that carries the EMPTY-STRING subtype (key present, value `""`) in
a direct-message channel is NOT dropped: the handler invokes the query
function and posts a reply. -/
theorem message_drop_counterexample :
    (MessageEvent.mk (some "") none (some "im") (some "hi") (some "U1")).subtype.isSome
      = true ∧
    handle_message agentEnvW
        (MessageEvent.mk (some "") none (some "im") (some "hi") (some "U1")) =
      [BotAction.callQuery "hi", BotAction.sayText "echo hi"] ∧
    handle_message agentEnvW
        (MessageEvent.mk (some "") none (some "im") (some "hi") (some "U1")) ≠ [] := by
  refine ⟨rfl, rfl, ?_⟩
  intro hc
  have hlist : ([BotAction.callQuery "hi", BotAction.sayText "echo hi"] : List BotAction)
      = [] := hc
  exact List.cons_ne_nil _ _ hlist

/-- C9 (amended): an inbound plain-message event is dropped silently with
zero outbound calls (no reply, no capability or query call) whenever it
carries a TRUTHY (present and non-empty) subtype, or a truthy
bot-originator marker, or its channel_type is not `"im"`; presence of an
empty-string subtype or bot_id does not trigger the drop, because the code
tests `event.get(...)` truthiness rather than key presence. -/
theorem message_drop_truthy (env : AgentEnv) (event : MessageEvent)
    (h : pyTruthy event.subtype = true ∨ pyTruthy event.bot_id = true ∨
      event.channel_type ≠ some "im") :
    handle_message env event = [] := by
  unfold handle_message handle_message_async
  rcases h with h | h | h
  · rw [h]
    rfl
  · rw [h]
    simp
  · by_cases hs : (pyTruthy event.subtype || pyTruthy event.bot_id) = true
    · rw [if_pos hs]
    · rw [if_neg hs, if_pos h]

theorem message_drop_truthy_witness :
    handle_message agentEnvW (MessageEvent.mk (some "bot_message") none (some "im")
      (some "hi") (some "U1")) = [] ∧
    handle_message agentEnvW (MessageEvent.mk none none (some "channel")
      (some "hi") (some "U1")) = [] :=
  ⟨message_drop_truthy agentEnvW (MessageEvent.mk (some "bot_message") none (some "im")
      (some "hi") (some "U1")) (Or.inl (by decide)),
   message_drop_truthy agentEnvW (MessageEvent.mk none none (some "channel")
      (some "hi") (some "U1")) (Or.inr (Or.inr (by decide)))⟩
